import Mathlib

/-!
Shallow embedding of `src/static/js/script.js` (IdentityPlatform), covering the
field validators, the image-file validator, the image-quality estimator, the
quality-feedback banding, the webcam capture handoff and the `/api/verify`
call wrapper, together with theorems settling the specification claims.
-/

namespace IdentityPlatform

/-- A browser `File`: name, declared MIME type, byte size
(the only attributes the script reads). -/
structure JsFile where
  name : String
  type : String
  size : Nat
deriving Repr, DecidableEq

/-- A form field as `validateField` sees it: its `type` attribute, `name`
attribute, string `value`, and (for file inputs) the selected `files` list. -/
structure FormField where
  type : String
  name : String
  value : String
  files : List JsFile
deriving Repr, DecidableEq

/-- JavaScript whitespace (the ASCII part of `\s` / `String.prototype.trim`):
space, tab, line feed, carriage return, vertical tab, form feed. -/
def isJsWhitespace (c : Char) : Bool :=
  c = ' ' || c = '\t' || c = '\n' || c = '\r' || c = '\x0b' || c = '\x0c'

/-- `String.prototype.trim` on a character list: drop leading and trailing
whitespace. -/
def jsTrimList (cs : List Char) : List Char :=
  ((cs.dropWhile isJsWhitespace).reverse.dropWhile isJsWhitespace).reverse

/-- `field.value.trim()` from the validator entry (line 62). -/
def jsTrim (s : String) : String :=
  ⟨jsTrimList s.data⟩

/-- A character allowed by the name regex `/^[a-zA-Z\s]+$/`:
an ASCII letter or whitespace. -/
def isNameChar (c : Char) : Bool :=
  ('a' ≤ c && c ≤ 'z') || ('A' ≤ c && c ≤ 'Z') || isJsWhitespace c

/-- `/^[a-zA-Z\s]+$/.test(value)` (line 72): at least one character and every
character a letter or whitespace. -/
def nameRegexTest (s : String) : Bool :=
  !s.data.isEmpty && s.data.all isNameChar

/-- Value of a hexadecimal digit character; 16 for a non-digit. -/
def hexDigitVal (c : Char) : Nat :=
  if '0' ≤ c && c ≤ '9' then c.toNat - '0'.toNat
  else if 'a' ≤ c && c ≤ 'f' then c.toNat - 'a'.toNat + 10
  else if 'A' ≤ c && c ≤ 'F' then c.toNat - 'A'.toNat + 10
  else 16

/-- Whether `c` is a digit in the given base (10 or 16 here). -/
def isDigitInBase (base : Nat) (c : Char) : Bool :=
  hexDigitVal c < base

/-- Value of a digit string in the given base. -/
def digitsToNat (base : Nat) (ds : List Char) : Nat :=
  ds.foldl (fun acc c => acc * base + hexDigitVal c) 0

/-- Parse the longest leading run of base-`base` digits; `none` (JS `NaN`)
when there is no digit. -/
def parseDigits (base : Nat) (cs : List Char) : Option Nat :=
  let ds := cs.takeWhile (isDigitInBase base)
  if ds.isEmpty then none else some (digitsToNat base ds)

/-- `parseInt` after the optional sign: a `0x`/`0X` prefix selects base 16,
otherwise base 10. -/
def parseIntNoSign : List Char → Option Nat
  | '0' :: 'x' :: rest => parseDigits 16 rest
  | '0' :: 'X' :: rest => parseDigits 16 rest
  | cs => parseDigits 10 cs

/-- JavaScript `parseInt(s)` (no radix argument) on an already-trimmed string:
optional sign, optional hex prefix, longest digit prefix; `none` models `NaN`. -/
def parseIntJs (s : String) : Option Int :=
  match s.data with
  | '-' :: rest => (parseIntNoSign rest).map (fun n => -(n : Int))
  | '+' :: rest => (parseIntNoSign rest).map (fun n => (n : Int))
  | cs => (parseIntNoSign cs).map (fun n => (n : Int))

/-- The accepted MIME types of `validateImageFile` (line 121). -/
def validTypes : List String :=
  ["image/jpeg", "image/jpg", "image/png"]

/-- The size cap of `validateImageFile` (line 122): 5 MB. -/
def maxSize : Nat :=
  5 * 1024 * 1024

/-- `validateImageFile(file)` (lines 120–133): type must be listed and size
must not exceed `maxSize`. -/
def validateImageFile (file : JsFile) : Bool :=
  if !(validTypes.contains file.type) then false
  else if file.size > maxSize then false
  else true

/-- The outcome of `validateField`: the returned `isValid` flag and the
`errorMessage` local (empty when no rule failed). -/
structure FieldValidationResult where
  isValid : Bool
  errorMessage : String
deriving Repr, DecidableEq

/-- `validateField(field)` (lines 61–118): trim the value, switch on the
field type and name, and record validity plus the error message. -/
def validateField (field : FormField) : FieldValidationResult :=
  let value := jsTrim field.value
  if field.type = "text" then
    if field.name = "full_name" then
      if value.length < 2 then
        ⟨false, "Name must be at least 2 characters long"⟩
      else if !nameRegexTest value then
        ⟨false, "Name can only contain letters and spaces"⟩
      else ⟨true, ""⟩
    else if field.name = "application_id" then
      if value.length < 3 then
        ⟨false, "Application ID must be at least 3 characters long"⟩
      else ⟨true, ""⟩
    else ⟨true, ""⟩
  else if field.type = "number" then
    if field.name = "age" then
      match parseIntJs value with
      | none => ⟨false, "Age must be between 16 and 100"⟩
      | some age =>
        if age < 16 || age > 100 then ⟨false, "Age must be between 16 and 100"⟩
        else ⟨true, ""⟩
    else ⟨true, ""⟩
  else if field.type = "file" then
    match field.files with
    | f :: _ =>
      if validateImageFile f then ⟨true, ""⟩
      else ⟨false, "Please upload a valid image file (JPEG, PNG) under 5MB"⟩
    | [] => ⟨true, ""⟩
  else if field.type = "select-one" then
    if value = "" then ⟨false, "Please select an option"⟩
    else ⟨true, ""⟩
  else ⟨true, ""⟩

/-- The inline error annotation left next to the field after `validateField`
runs: `showFieldError` attaches the message on failure, `clearFieldError`
removes any annotation on success (lines 111–115). -/
def errorAnnotationAfter (field : FormField) : Option String :=
  let r := validateField field
  if r.isValid then none else some r.errorMessage

/-- The per-pixel values `(data[i] + data[i+1] + data[i+2]) / 3` read by both
loops of `calculateImageQuality` (lines 286–288, 293–295): the flat RGBA
buffer is consumed four entries at a time, the alpha entry is skipped. -/
noncomputable def pixelVals : List Nat → List ℝ
  | r :: g :: b :: _ :: rest => ((r : ℝ) + (g : ℝ) + (b : ℝ)) / 3 :: pixelVals rest
  | _ => []

/-- The pixel count `data.length / 4` used as the divisor (lines 289, 297). -/
noncomputable def pixelCount (data : List Nat) : ℝ :=
  (data.length : ℝ) / 4

/-- The `brightness` accumulator of `calculateImageQuality` after the division
(lines 286–289): mean of the per-pixel values. -/
noncomputable def brightnessOf (data : List Nat) : ℝ :=
  (pixelVals data).sum / pixelCount data

/-- The `contrast` value (lines 292–297): square root of the mean squared
deviation of the per-pixel values from `brightness`. -/
noncomputable def contrastOf (data : List Nat) : ℝ :=
  Real.sqrt (((pixelVals data).map (fun p => (p - brightnessOf data) ^ 2)).sum
    / pixelCount data)

/-- `brightnessScore = 1 - Math.abs(brightness - 127) / 127` (line 300). -/
noncomputable def brightnessScoreOf (data : List Nat) : ℝ :=
  1 - |brightnessOf data - 127| / 127

/-- `contrastScore = Math.min(contrast / 64, 1)` (line 301). -/
noncomputable def contrastScoreOf (data : List Nat) : ℝ :=
  min (contrastOf data / 64) 1

/-- `calculateImageQuality(imageData)` (lines 279–304), as a function of the
flat RGBA `data` array: `brightnessScore * 0.4 + contrastScore * 0.6`. -/
noncomputable def calculateImageQuality (data : List Nat) : ℝ :=
  brightnessScoreOf data * 0.4 + contrastScoreOf data * 0.6

/-- `generateQualityFeedback(qualityScore)` (lines 306–316). -/
noncomputable def generateQualityFeedback (qualityScore : ℝ) : String :=
  if qualityScore ≥ 0.8 then "Excellent image quality"
  else if qualityScore ≥ 0.6 then "Good image quality"
  else if qualityScore ≥ 0.4 then
    "Fair image quality - consider retaking with better lighting"
  else "Poor image quality - please retake with better lighting and focus"

/-- Whether every pixel of the flat RGBA buffer has `R = G = B = 127`
(alpha arbitrary); `false` when the length is not a multiple of 4. -/
def allPixels127 : List Nat → Bool
  | [] => true
  | r :: g :: b :: _ :: rest =>
    r = 127 && g = 127 && b = 127 && allPixels127 rest
  | _ => false

/-- The brightness of the spec's step 1: the mean over all pixels of
`(R+G+B)/3`, dividing by the number of pixels. -/
noncomputable def specBrightness (data : List Nat) : ℝ :=
  (pixelVals data).sum / ((pixelVals data).length : ℝ)

/-- The contrast of the spec's step 2: the population standard deviation of
the per-pixel values around `specBrightness`. -/
noncomputable def specContrast (data : List Nat) : ℝ :=
  Real.sqrt (((pixelVals data).map (fun v => (v - specBrightness data) ^ 2)).sum
    / ((pixelVals data).length : ℝ))

/-- The spec's score, steps 3–5: `0.4·brightnessScore + 0.6·contrastScore`
with `brightnessScore = 1 − |brightness − 127|/127` and
`contrastScore = min(contrast/64, 1)`. -/
noncomputable def specScore (data : List Nat) : ℝ :=
  0.4 * (1 - |specBrightness data - 127| / 127)
    + 0.6 * min (specContrast data / 64) 1

/-- The DOM state touched by `captureWebcamPhoto` (lines 416–439): whether
the video, canvas and upload file input are present, the file input's
`files` slot, the events dispatched on the file input, and the encode
requests passed to `canvas.toBlob` as (MIME type, quality) pairs. -/
structure CaptureState where
  videoPresent : Bool
  canvasPresent : Bool
  fileInputPresent : Bool
  fileInputFiles : List JsFile
  dispatchedEvents : List String
  encodeRequests : List (String × ℚ)
deriving Repr, DecidableEq

/-- `captureWebcamPhoto()` (lines 416–439), with the size of the encoder's
JPEG blob abstracted as `blobSize`: bail out unless video and canvas exist;
otherwise request a JPEG encoding at quality 0.9, wrap the blob in a `File`
named `webcam_capture.jpg` of type `image/jpeg`, and — when the upload file
input exists — replace its `files` with that single file via a
`DataTransfer` and dispatch a bubbling `change` event on it. -/
def captureWebcamPhoto (blobSize : Nat) (s : CaptureState) : CaptureState :=
  if !s.videoPresent || !s.canvasPresent then s
  else
    let file : JsFile := ⟨"webcam_capture.jpg", "image/jpeg", blobSize⟩
    let s1 := { s with encodeRequests := s.encodeRequests ++ [("image/jpeg", 9 / 10)] }
    if s1.fileInputPresent then
      { s1 with
        fileInputFiles := [file]
        dispatchedEvents := s1.dispatchedEvents ++ ["change"] }
    else s1

/-- The outcome of the `fetch('/api/verify', …)` call as `verifyFaceAPI`
observes it: either the fetch promise rejects, or a response arrives with an
`ok` flag and a `json()` result that parses to a value of `α` or throws. -/
inductive FetchOutcome (α : Type) where
  | fetchRejected (msg : String)
  | response (ok : Bool) (jsonResult : Except String α)

/-- What a call to `verifyFaceAPI` produces: the value returned or the error
rethrown, and the `console.error` trace lines emitted. -/
structure ApiCallResult (α : Type) where
  result : Except String α
  consoleErrors : List String

/-- `verifyFaceAPI(imageFile)` (lines 588–607) as a function of the fetch
outcome: a non-`ok` response raises `Verification failed`; any error caught
(fetch rejection, the raised error, or a `json()` failure) is logged with
`console.error('API Error:', …)` and rethrown; a parsed body is returned. -/
def verifyFaceAPI {α : Type} (outcome : FetchOutcome α) : ApiCallResult α :=
  match outcome with
  | .fetchRejected msg => ⟨.error msg, ["API Error: " ++ msg]⟩
  | .response ok jsonResult =>
    if !ok then
      ⟨.error "Verification failed", ["API Error: " ++ "Verification failed"]⟩
    else
      match jsonResult with
      | .error e => ⟨.error e, ["API Error: " ++ e]⟩
      | .ok v => ⟨.ok v, []⟩

/-- Whether an `Except` models a thrown error. -/
def isThrow {α : Type} : Except String α → Bool
  | .error _ => true
  | .ok _ => false

/-- A decimal integer string (what the claim's phrase "the value is an
integer" denotes): an optional sign followed by one or more digits. -/
def isIntegerString (s : String) : Bool :=
  match s.data with
  | '-' :: ds => !ds.isEmpty && ds.all Char.isDigit
  | '+' :: ds => !ds.isEmpty && ds.all Char.isDigit
  | ds => !ds.isEmpty && ds.all Char.isDigit

/-- The pixel loop consumes the flat buffer four entries at a time, so a
buffer of length `4·k` yields `k` per-pixel values. -/
theorem pixelVals_length_mul : ∀ (data : List Nat), data.length % 4 = 0 →
    4 * (pixelVals data).length = data.length
  | [], _ => by simp [pixelVals]
  | [a], h => by simp at h
  | [a, b], h => by simp at h
  | [a, b, c], h => by simp at h
  | a :: b :: c :: d :: rest, h => by
    have hr : rest.length % 4 = 0 := by
      simp only [List.length_cons] at h
      omega
    have ih := pixelVals_length_mul rest hr
    simp only [pixelVals, List.length_cons]
    omega

/-- On a well-formed RGBA buffer, the divisor `data.length / 4` equals the
number of per-pixel values. -/
theorem pixelCount_eq (data : List Nat) (h : data.length % 4 = 0) :
    pixelCount data = ((pixelVals data).length : ℝ) := by
  have hlen := pixelVals_length_mul data h
  have hcast : (data.length : ℝ) = 4 * ((pixelVals data).length : ℝ) := by
    exact_mod_cast hlen.symm
  unfold pixelCount
  rw [hcast]
  ring

/-- Every per-pixel value is nonnegative. -/
theorem pixelVals_nonneg : ∀ (data : List Nat) (v : ℝ), v ∈ pixelVals data → 0 ≤ v
  | a :: b :: c :: d :: rest, v, hv => by
    simp only [pixelVals, List.mem_cons] at hv
    rcases hv with h | h
    · subst h
      positivity
    · exact pixelVals_nonneg rest v h
  | [], v, hv => by simp [pixelVals] at hv
  | [a], v, hv => by simp [pixelVals] at hv
  | [a, b], v, hv => by simp [pixelVals] at hv
  | [a, b, c], v, hv => by simp [pixelVals] at hv

/-- When every channel is at most 255, every per-pixel value is at most 255. -/
theorem pixelVals_le_255 : ∀ (data : List Nat), (∀ x ∈ data, x ≤ 255) →
    ∀ v ∈ pixelVals data, v ≤ 255
  | a :: b :: c :: d :: rest, hle, v, hv => by
    simp only [pixelVals, List.mem_cons] at hv
    rcases hv with h | h
    · subst h
      have ha : (a : ℝ) ≤ 255 := by exact_mod_cast hle a (by simp)
      have hb : (b : ℝ) ≤ 255 := by exact_mod_cast hle b (by simp)
      have hc : (c : ℝ) ≤ 255 := by exact_mod_cast hle c (by simp)
      linarith
    · exact pixelVals_le_255 rest (fun x hx => hle x (by simp [hx])) v h
  | [], hle, v, hv => by simp [pixelVals] at hv
  | [a], hle, v, hv => by simp [pixelVals] at hv
  | [a, b], hle, v, hv => by simp [pixelVals] at hv
  | [a, b, c], hle, v, hv => by simp [pixelVals] at hv

/-- A non-empty buffer has a positive pixel count. -/
theorem pixelCount_pos (data : List Nat) (hne : data ≠ [])
    (h4 : data.length % 4 = 0) : 0 < pixelCount data := by
  unfold pixelCount
  have hz : data.length ≠ 0 := by
    simpa [List.length_eq_zero] using hne
  have h1 : (1 : ℝ) ≤ (data.length : ℝ) := by
    exact_mod_cast Nat.one_le_iff_ne_zero.mpr hz
  linarith

/-- On a non-empty well-formed buffer with channels in `[0, 255]`, the mean
brightness lies in `[0, 255]`. -/
theorem brightness_bounds (data : List Nat) (hne : data ≠ [])
    (h4 : data.length % 4 = 0) (hle : ∀ x ∈ data, x ≤ 255) :
    0 ≤ brightnessOf data ∧ brightnessOf data ≤ 255 := by
  have hk := pixelCount_eq data h4
  have hkpos : (0 : ℝ) < ((pixelVals data).length : ℝ) := by
    rw [← hk]
    exact pixelCount_pos data hne h4
  have hsum0 : 0 ≤ (pixelVals data).sum :=
    List.sum_nonneg (fun v hv => pixelVals_nonneg data v hv)
  have hsum1 : (pixelVals data).sum ≤ ((pixelVals data).length : ℝ) * 255 := by
    have := List.sum_le_card_nsmul (pixelVals data) 255
      (pixelVals_le_255 data hle)
    simpa [nsmul_eq_mul] using this
  unfold brightnessOf
  rw [hk]
  constructor
  · positivity
  · rw [div_le_iff hkpos]
    linarith

/-- A buffer accepted by `allPixels127` has length a multiple of 4. -/
theorem allPixels127_length : ∀ (data : List Nat), allPixels127 data = true →
    data.length % 4 = 0
  | [], _ => by simp
  | [a], h => by simp [allPixels127] at h
  | [a, b], h => by simp [allPixels127] at h
  | [a, b, c], h => by simp [allPixels127] at h
  | a :: b :: c :: d :: rest, h => by
    simp only [allPixels127, Bool.and_eq_true] at h
    have := allPixels127_length rest h.2
    simp only [List.length_cons]
    omega

/-- On a constant-127 buffer, every per-pixel value equals 127. -/
theorem pixelVals_const127 : ∀ (data : List Nat), allPixels127 data = true →
    ∀ v ∈ pixelVals data, v = 127
  | [], _, v, hv => by simp [pixelVals] at hv
  | [a], h, v, hv => by simp [allPixels127] at h
  | [a, b], h, v, hv => by simp [allPixels127] at h
  | [a, b, c], h, v, hv => by simp [allPixels127] at h
  | a :: b :: c :: d :: rest, h, v, hv => by
    simp only [allPixels127, Bool.and_eq_true, decide_eq_true_eq] at h
    obtain ⟨⟨⟨ha, hb⟩, hc⟩, hrest⟩ := h
    simp only [pixelVals, List.mem_cons] at hv
    rcases hv with h | h
    · subst h
      rw [ha, hb, hc]
      norm_num
    · exact pixelVals_const127 rest hrest v h

/-- Claim C1: for every non-empty RGBA pixel buffer,
`calculateImageQuality` returns exactly
`0.4·brightnessScore + 0.6·contrastScore`, where brightness is the mean over
all pixels of `(R+G+B)/3`, contrast is the population standard deviation of
the per-pixel values around that mean, `brightnessScore = 1 − |brightness −
127| / 127`, and `contrastScore = min(contrast / 64, 1)`. -/
theorem c1_quality_matches_spec (data : List Nat) (hne : data ≠ [])
    (h4 : data.length % 4 = 0) :
    calculateImageQuality data = specScore data := by
  have hcast := pixelCount_eq data h4
  have hb : brightnessOf data = specBrightness data := by
    unfold brightnessOf specBrightness
    rw [hcast]
  have hc : contrastOf data = specContrast data := by
    unfold contrastOf specContrast
    rw [hcast, hb]
  unfold calculateImageQuality specScore brightnessScoreOf contrastScoreOf
  rw [hb, hc]
  ring

/-- Witness for claim C1: the code's score equals the spec's score on the
one-pixel buffer `[10, 20, 30, 40]`. -/
theorem c1_quality_matches_spec_witness :
    ([10, 20, 30, 40] : List Nat) ≠ []
    ∧ ([10, 20, 30, 40] : List Nat).length % 4 = 0
    ∧ calculateImageQuality [10, 20, 30, 40] = specScore [10, 20, 30, 40] :=
  ⟨by decide, by decide,
    c1_quality_matches_spec [10, 20, 30, 40] (by decide) (by decide)⟩

/-- Claim C3 counterexample: the all-white single-pixel buffer
`[255, 255, 255, 255]` (non-empty, every channel in `[0, 255]`) gets a
score strictly below 0: brightness 255 makes `brightnessScore = 1 − 128/127
< 0` and contrast is 0, so the score is `−0.4/127`. -/
theorem c3_score_cex :
    ([255, 255, 255, 255] : List Nat) ≠ []
    ∧ (∀ x ∈ ([255, 255, 255, 255] : List Nat), x ≤ 255)
    ∧ calculateImageQuality [255, 255, 255, 255] < 0 := by
  refine ⟨by decide, by decide, ?_⟩
  have hpv : pixelVals [255, 255, 255, 255] = [255] := by
    norm_num [pixelVals]
  have hpc : pixelCount [255, 255, 255, 255] = 1 := by
    norm_num [pixelCount]
  have hb : brightnessOf [255, 255, 255, 255] = 255 := by
    rw [brightnessOf, hpv, hpc]
    norm_num
  have hc : contrastOf [255, 255, 255, 255] = 0 := by
    rw [contrastOf, hpv, hpc, hb]
    norm_num [Real.sqrt_zero]
  rw [calculateImageQuality, brightnessScoreOf, contrastScoreOf, hb, hc]
  rw [show |(255 : ℝ) - 127| = 128 by rw [abs_of_nonneg] <;> norm_num]
  norm_num

/-- Claim C3 (amended): for every non-empty RGBA buffer with channel values
in `[0, 255]`, the score lies in `[−2/635, 1]`: the upper bound 1 holds, but
because `brightnessScore` is not clamped the score can dip as low as
`0.4·(−1/127) = −2/635` for very bright or very dark images. -/
theorem c3_score_bounds (data : List Nat) (hne : data ≠ [])
    (h4 : data.length % 4 = 0) (hle : ∀ x ∈ data, x ≤ 255) :
    -(2 / 635) ≤ calculateImageQuality data ∧ calculateImageQuality data ≤ 1 := by
  obtain ⟨hb0, hb1⟩ := brightness_bounds data hne h4 hle
  have habs : |brightnessOf data - 127| ≤ 128 := by
    rw [abs_le]
    constructor <;> linarith
  have hbs0 : -(1 / 127) ≤ brightnessScoreOf data := by
    unfold brightnessScoreOf
    have hdiv : |brightnessOf data - 127| / 127 ≤ 128 / 127 := by
      gcongr
    linarith [hdiv]
  have hbs1 : brightnessScoreOf data ≤ 1 := by
    unfold brightnessScoreOf
    have : 0 ≤ |brightnessOf data - 127| / 127 := by positivity
    linarith
  have hcs0 : 0 ≤ contrastScoreOf data := by
    unfold contrastScoreOf contrastOf
    exact le_min (by positivity) zero_le_one
  have hcs1 : contrastScoreOf data ≤ 1 := min_le_right _ _
  unfold calculateImageQuality
  constructor <;> nlinarith

/-- Witness for claim C3 (amended): the bounds hold on the all-black
single-pixel buffer. -/
theorem c3_score_bounds_witness :
    ([0, 0, 0, 0] : List Nat) ≠ []
    ∧ ([0, 0, 0, 0] : List Nat).length % 4 = 0
    ∧ (∀ x ∈ ([0, 0, 0, 0] : List Nat), x ≤ 255)
    ∧ (-(2 / 635) ≤ calculateImageQuality [0, 0, 0, 0]
        ∧ calculateImageQuality [0, 0, 0, 0] ≤ 1) :=
  ⟨by decide, by decide, by decide,
    c3_score_bounds [0, 0, 0, 0] (by decide) (by decide) (by decide)⟩

/-- Claim C7: on every non-empty RGBA buffer whose pixels all have
`R = G = B = 127`, the quality computation yields `brightnessScore = 1`,
`contrast = 0` and score `0.4`, and `generateQualityFeedback` classifies
that score as the "Fair" message. -/
theorem c7_gray_buffer (data : List Nat) (hne : data ≠ [])
    (hall : allPixels127 data = true) :
    brightnessScoreOf data = 1
    ∧ contrastOf data = 0
    ∧ calculateImageQuality data = 0.4
    ∧ generateQualityFeedback (calculateImageQuality data)
        = "Fair image quality - consider retaking with better lighting" := by
  have h4 := allPixels127_length data hall
  have hk := pixelCount_eq data h4
  have hkpos : (0 : ℝ) < ((pixelVals data).length : ℝ) := by
    rw [← hk]
    exact pixelCount_pos data hne h4
  have hsum : (pixelVals data).sum = ((pixelVals data).length : ℝ) * 127 := by
    have := List.sum_eq_card_nsmul (pixelVals data) 127
      (pixelVals_const127 data hall)
    simpa [nsmul_eq_mul] using this
  have hb : brightnessOf data = 127 := by
    unfold brightnessOf
    rw [hk, hsum]
    field_simp
  have hc : contrastOf data = 0 := by
    unfold contrastOf
    rw [hk]
    have hzero : ((pixelVals data).map
        (fun p => (p - brightnessOf data) ^ 2)).sum = 0 := by
      apply List.sum_eq_zero
      intro x hx
      simp only [List.mem_map] at hx
      obtain ⟨v, hv, rfl⟩ := hx
      rw [pixelVals_const127 data hall v hv, hb]
      ring
    rw [hzero, zero_div, Real.sqrt_zero]
  have hbs : brightnessScoreOf data = 1 := by
    unfold brightnessScoreOf
    rw [hb]
    norm_num
  have hq : calculateImageQuality data = 0.4 := by
    unfold calculateImageQuality contrastScoreOf
    rw [hbs, hc]
    norm_num
  refine ⟨hbs, hc, hq, ?_⟩
  rw [hq]
  unfold generateQualityFeedback
  rw [if_neg (by norm_num), if_neg (by norm_num), if_pos (by norm_num)]

/-- Witness for claim C7: the single-pixel gray buffer `[127, 127, 127, 0]`
scores exactly 0.4. -/
theorem c7_gray_buffer_witness :
    ([127, 127, 127, 0] : List Nat) ≠ []
    ∧ allPixels127 [127, 127, 127, 0] = true
    ∧ calculateImageQuality [127, 127, 127, 0] = 0.4 :=
  ⟨by decide, by decide,
    (c7_gray_buffer [127, 127, 127, 0] (by decide) (by decide)).2.2.1⟩

/-- Claim C2: for every quality score `s`, `generateQualityFeedback` returns
the "Excellent" message iff `s ≥ 0.8`, the "Good" message iff
`0.6 ≤ s < 0.8`, the "Fair" message iff `0.4 ≤ s < 0.6`, and the "Poor"
message iff `s < 0.4`; each band's lower bound is inclusive. -/
theorem c2_feedback_bands (s : ℝ) :
    (generateQualityFeedback s = "Excellent image quality" ↔ 0.8 ≤ s)
    ∧ (generateQualityFeedback s = "Good image quality" ↔ 0.6 ≤ s ∧ s < 0.8)
    ∧ (generateQualityFeedback s
        = "Fair image quality - consider retaking with better lighting"
        ↔ 0.4 ≤ s ∧ s < 0.6)
    ∧ (generateQualityFeedback s
        = "Poor image quality - please retake with better lighting and focus"
        ↔ s < 0.4) := by
  rcases lt_or_le s 0.4 with h4 | h4
  · have hfb : generateQualityFeedback s
        = "Poor image quality - please retake with better lighting and focus" := by
      unfold generateQualityFeedback
      rw [if_neg (not_le.mpr (by linarith)), if_neg (not_le.mpr (by linarith)),
        if_neg (not_le.mpr (by linarith))]
    rw [hfb]
    refine ⟨?_, ?_, ?_, ?_⟩ <;> simp <;>
      first
      | linarith
      | (intro h; linarith)
      | (constructor <;> linarith)
  · rcases lt_or_le s 0.6 with h6 | h6
    · have hfb : generateQualityFeedback s
          = "Fair image quality - consider retaking with better lighting" := by
        unfold generateQualityFeedback
        rw [if_neg (not_le.mpr (by linarith)), if_neg (not_le.mpr (by linarith)),
          if_pos h4]
      rw [hfb]
      refine ⟨?_, ?_, ?_, ?_⟩ <;> simp <;>
        first
        | linarith
        | (intro h; linarith)
        | (constructor <;> linarith)
    · rcases lt_or_le s 0.8 with h8 | h8
      · have hfb : generateQualityFeedback s = "Good image quality" := by
          unfold generateQualityFeedback
          rw [if_neg (not_le.mpr (by linarith)), if_pos h6]
        rw [hfb]
        refine ⟨?_, ?_, ?_, ?_⟩ <;> simp <;>
          first
          | linarith
          | (intro h; linarith)
          | (constructor <;> linarith)
      · have hfb : generateQualityFeedback s = "Excellent image quality" := by
          unfold generateQualityFeedback
          rw [if_pos h8]
        rw [hfb]
        refine ⟨?_, ?_, ?_, ?_⟩ <;> simp <;>
          first
          | linarith
          | (intro h; linarith)
          | (constructor <;> linarith)

/-- Claim C4: `validateImageFile` returns true iff the file's declared MIME
type is one of `image/jpeg`, `image/jpg`, `image/png` and its size is at
most `5·1024·1024` bytes; so it rejects any other type regardless of size,
rejects any larger file regardless of type, and accepts a listed type of
exactly `5·1024·1024` bytes. -/
theorem c4_validateImageFile_iff (file : JsFile) :
    validateImageFile file = true ↔
      ((file.type = "image/jpeg" ∨ file.type = "image/jpg"
          ∨ file.type = "image/png")
        ∧ file.size ≤ 5 * 1024 * 1024) := by
  simp [validateImageFile, validTypes, maxSize]

/-- Claim C5 counterexample: the field value `" A "` has length ≥ 2 and
consists only of letters and whitespace, yet the name validator reports it
invalid, because the code trims the value first and `"A"` is too short. -/
theorem c5_name_field_cex :
    (validateField ⟨"text", "full_name", " A ", []⟩).isValid = false
    ∧ 2 ≤ (" A " : String).length
    ∧ (" A " : String).data.all isNameChar = true := by
  decide

/-- Claim C5 (amended): the name validator reports valid iff the *trimmed*
value has length ≥ 2 and consists only of letters and whitespace. -/
theorem c5_name_field_valid_iff (v : String) (files : List JsFile) :
    (validateField ⟨"text", "full_name", v, files⟩).isValid = true ↔
      (2 ≤ (jsTrim v).length ∧ ∀ c ∈ (jsTrim v).data, isNameChar c = true) := by
  by_cases hlen : (jsTrim v).length < 2
  · simp [validateField, hlen]
  · have hne : (jsTrim v).data.isEmpty = false := by
      cases hd : (jsTrim v).data with
      | nil => exact absurd (by simp [String.length, hd]) hlen
      | cons a l => simp
    by_cases hall : (jsTrim v).data.all isNameChar = true
    · have hre : nameRegexTest (jsTrim v) = true := by
        simp [nameRegexTest, hne, hall]
      simp [validateField, hlen, hre]
      exact ⟨by omega, by simpa [List.all_eq_true] using hall⟩
    · have hrf : nameRegexTest (jsTrim v) = false := by
        simp [nameRegexTest, hne]
        simpa using hall
      simp [validateField, hlen, hrf]
      intro _
      simpa using hall

/-- Claim C6 counterexample: the value `"16.5"` is not an integer, yet the
age validator reports it valid, because `parseInt` parses the leading digit
prefix `16`, which lies in `[16, 100]`. -/
theorem c6_age_field_cex :
    (validateField ⟨"number", "age", "16.5", []⟩).isValid = true
    ∧ isIntegerString "16.5" = false := by
  decide

/-- Claim C6 (amended): the age validator reports valid iff `parseInt` of
the trimmed value yields an integer `n` with `16 ≤ n ≤ 100`; values such as
`"16.5"` whose leading integer prefix lies in range are also accepted. -/
theorem c6_age_field_valid_iff (v : String) (files : List JsFile) :
    (validateField ⟨"number", "age", v, files⟩).isValid = true ↔
      ∃ n : Int, parseIntJs (jsTrim v) = some n ∧ 16 ≤ n ∧ n ≤ 100 := by
  cases h : parseIntJs (jsTrim v) with
  | none => simp [validateField, h]
  | some a =>
    by_cases hr : a < 16 ∨ a > 100
    · have hb : (a < 16 || a > 100) = true := by
        rcases hr with h1 | h1 <;> simp [h1]
      simp [validateField, h, hb]
      omega
    · push_neg at hr
      have hb : (a < 16 || a > 100) = false := by
        simp only [Bool.or_eq_false_iff, decide_eq_false_iff_not]
        exact ⟨not_lt.mpr hr.1, not_lt.mpr hr.2⟩
      simp [validateField, h, hb]
      exact ⟨hr.1, hr.2⟩

/-- Claim C10: every (type, name) combination outside the explicitly checked
cases — a text field named neither `full_name` nor `application_id`, a
number field not named `age`, a file field with no file selected, or a type
other than text/number/file/select-one — validates successfully regardless
of value, and any prior error annotation is cleared. -/
theorem c10_validateField_default (f : FormField)
    (h : (f.type = "text" ∧ f.name ≠ "full_name" ∧ f.name ≠ "application_id")
      ∨ (f.type = "number" ∧ f.name ≠ "age")
      ∨ (f.type = "file" ∧ f.files = [])
      ∨ (f.type ≠ "text" ∧ f.type ≠ "number" ∧ f.type ≠ "file"
          ∧ f.type ≠ "select-one")) :
    validateField f = ⟨true, ""⟩ ∧ errorAnnotationAfter f = none := by
  have hv : validateField f = ⟨true, ""⟩ := by
    rcases h with ⟨ht, h1, h2⟩ | ⟨ht, h1⟩ | ⟨ht, h1⟩ | ⟨h1, h2, h3, h4⟩
    · simp [validateField, ht, h1, h2]
    · simp [validateField, ht, h1]
    · simp [validateField, ht, h1]
    · simp [validateField, h1, h2, h3, h4]
  exact ⟨hv, by simp [errorAnnotationAfter, hv]⟩

/-- Claim C8: with the webcam view active (video, canvas and the upload file
input present), a capture encodes the frame as a JPEG at quality 0.9, places
exactly one `image/jpeg` file into the upload input's files slot, and
dispatches a `change` event on that input (the event handler installed by
`setupImageProcessing` runs the same `handleImageUpload` validation/preview
path as a manual upload). -/
theorem c8_capture_single_jpeg (blobSize : Nat) (s : CaptureState)
    (hv : s.videoPresent = true) (hc : s.canvasPresent = true)
    (hf : s.fileInputPresent = true) :
    (captureWebcamPhoto blobSize s).fileInputFiles
        = [⟨"webcam_capture.jpg", "image/jpeg", blobSize⟩]
      ∧ (∀ f ∈ (captureWebcamPhoto blobSize s).fileInputFiles,
          f.type = "image/jpeg")
      ∧ (captureWebcamPhoto blobSize s).encodeRequests
          = s.encodeRequests ++ [("image/jpeg", 9 / 10)]
      ∧ "change" ∈ (captureWebcamPhoto blobSize s).dispatchedEvents := by
  simp [captureWebcamPhoto, hv, hc, hf]

/-- Witness for claim C8: capturing from an active webcam view with an empty
file input leaves exactly the one captured JPEG in the slot. -/
theorem c8_capture_single_jpeg_witness :
    (captureWebcamPhoto 1000 ⟨true, true, true, [], [], []⟩).fileInputFiles
      = [⟨"webcam_capture.jpg", "image/jpeg", 1000⟩] :=
  (c8_capture_single_jpeg 1000 ⟨true, true, true, [], [], []⟩ rfl rfl rfl).1

/-- Claim C9 counterexample: a fetch that succeeds with an `ok` response
whose body fails to parse as JSON still makes `verifyFaceAPI` throw, so
"throws iff the fetch fails or the response is not ok" is false. -/
theorem c9_verify_cex :
    (verifyFaceAPI (α := Unit)
        (.response true (.error "SyntaxError: Unexpected token"))).result
      = .error "SyntaxError: Unexpected token" := rfl

/-- Claim C9 (amended): `verifyFaceAPI` throws iff the fetch fails, the
response is not ok, or the response body fails to parse as JSON; otherwise
it returns the parsed body; every thrown error is logged to the console
first, and it never swallows an error. -/
theorem c9_verify_error_paths {α : Type} (o : FetchOutcome α) :
    (isThrow (verifyFaceAPI o).result = true ↔
        (∃ m, o = .fetchRejected m) ∨ (∃ j, o = .response false j)
          ∨ (∃ e, o = .response true (.error e)))
      ∧ (∀ v : α, (verifyFaceAPI o).result = .ok v ↔ o = .response true (.ok v))
      ∧ ((verifyFaceAPI o).consoleErrors = [] ↔
          isThrow (verifyFaceAPI o).result = false) := by
  rcases o with m | ⟨ok, j⟩
  · simp [verifyFaceAPI, isThrow]
  · cases ok
    · simp [verifyFaceAPI, isThrow]
    · cases j with
      | error e => simp [verifyFaceAPI, isThrow]
      | ok v => simp [verifyFaceAPI, isThrow]

/-- Witness for claim C10: a checkbox field with an empty name and arbitrary
value is one of the unchecked combinations and validates successfully. -/
theorem c10_validateField_default_witness :
    (("checkbox" : String) ≠ "text" ∧ ("checkbox" : String) ≠ "number"
      ∧ ("checkbox" : String) ≠ "file" ∧ ("checkbox" : String) ≠ "select-one")
    ∧ (validateField ⟨"checkbox", "consent", "whatever", []⟩ = ⟨true, ""⟩
        ∧ errorAnnotationAfter ⟨"checkbox", "consent", "whatever", []⟩ = none) :=
  ⟨by decide, c10_validateField_default ⟨"checkbox", "consent", "whatever", []⟩
    (Or.inr (Or.inr (Or.inr (by decide))))⟩

end IdentityPlatform
